import Mathlib

/-!
Verification development for the cart state synchronization engine of the
viniciusgdoliveira/shopify-liquid-theme repository.

The development shallowly embeds the three cart components of the source:

* `CartSystem` (class in the cart system script): `updateLineItem`,
  `removeLineItem` guarded by the `isUpdating` flag;
* `CartDrawer` (assets/cart-drawer.js): `updateCartItem`,
  `handleQuantityChange` and `handleNoteChange` sharing one
  `this.debounceTimer`;
* `window.cartUtils` (cart utilities script): `addToCart`,
  `updateCartItem`, `removeFromCart`, `updateCartNote`, `getCartData`
  with its 5000 ms cache, `clearCartCache`.

Network I/O is made explicit: each operation takes the response the
platform would return as a parameter and reports the list of network
requests it issued and the list of DOM `CustomEvent`s it dispatched.
The asynchronous interleaving of the three components is modelled by a
small-step machine (`step` / `run`) whose suspension points are exactly
the outstanding fetches, matching the single-threaded event-loop
execution of the source.
-/

/-- One line item of the Shopify cart document (`/cart.js`).  Only the
fields the claims mention are kept: `quantity` and `line_price`. -/
structure CartItem where
  quantity : Nat
  line_price : Nat
deriving DecidableEq

/-- The cart document returned by every cart endpoint (field names follow
the wire document: `item_count`, `total_price`, `items`, `note`). -/
structure Cart where
  items : List CartItem
  item_count : Nat
  total_price : Nat
  note : String
deriving DecidableEq

/-- A network request issued by the theme scripts.  The three mutation
endpoints are `/cart/add.js`, `/cart/change.js`, `/cart/update.js`; the
read endpoint is `/cart.js`. -/
inductive NetRequest where
  | postCartAdd (variantId : Nat) (quantity : Int)
  | postCartChange (line : Nat) (quantity : Int)
  | postCartUpdate (note : String)
  | getCart
deriving DecidableEq

/-- Outcome of one `fetch`: an OK response carrying the cart document, a
non-OK HTTP status (with the optional `message` field of the error body),
or a transport-level rejection (the promise rejects). -/
inductive Response where
  | ok (cart : Cart)
  | httpError (status : Nat) (msg : Option String)
  | transportError (msg : String)
deriving DecidableEq

/-- The typed result object returned by every `cartUtils` operation:
`{ success: true, data }` or `{ success: false, error }`. -/
inductive CartResult where
  | success (data : Cart)
  | failure (error : String)
deriving DecidableEq

/-- The `CustomEvent`s dispatched on `document` by `cartUtils`
(`cart:item-added`, `cart:error`, `cart:note-updated`). -/
inductive CartEvent where
  | itemAdded (data : Cart) (quantity : Int)
  | cartError (message : String)
  | noteUpdated (note : String)
deriving DecidableEq

/-- Module-level state of `window.cartUtils`: the `cartCache` field,
`some (data, timestamp)` when populated, `none` when cleared/never set. -/
structure CartUtilsState where
  cartCache : Option (Cart × Nat)
deriving DecidableEq

/-- The initial `cartUtils` state (`this.cartCache = null` in `init`). -/
def initUtils : CartUtilsState := { cartCache := none }

/-- Result of one `cartUtils` mutation call: the new module state, the
returned result object, the network requests issued, and the events
dispatched. -/
structure OpResult where
  state : CartUtilsState
  result : CartResult
  requests : List NetRequest
  events : List CartEvent
deriving DecidableEq

/-- JavaScript truthiness test used by `if (!variantId)`: a missing id or
the number 0 is falsy. -/
def jsFalsy : Option Nat → Bool
  | none => true
  | some v => v == 0

/-- Error message built by `cartUtils.addToCart` from a non-OK response:
`errorData.message || "HTTP error! status: " + status` (an absent or empty
`message` field falls back to the status text). -/
def httpErrorMessage (status : Nat) (msg : Option String) : String :=
  match msg with
  | some m => if m = "" then "HTTP error! status: " ++ toString status else m
  | none => "HTTP error! status: " ++ toString status

/-- `cartUtils.addToCart(variantId, quantity)`: validates its inputs
before any fetch (throwing into its own catch block), posts to
`/cart/add.js`, and on success calls `updateCartCount` (which issues a
`/cart.js` read) and dispatches `cart:item-added`; every failure is
caught and converted to `{ success: false, error }`, with a `cart:error`
event.  The cache field is never touched. -/
def addToCart (variantId : Option Nat) (quantity : Int) (resp : Response)
    (st : CartUtilsState) : OpResult :=
  if jsFalsy variantId then
    { state := st, result := .failure "Variant ID is required", requests := [],
      events := [.cartError "Variant ID is required"] }
  else if quantity < 1 then
    { state := st, result := .failure "Quantity must be at least 1", requests := [],
      events := [.cartError "Quantity must be at least 1"] }
  else
    let req := NetRequest.postCartAdd (variantId.getD 0) quantity
    match resp with
    | .ok data =>
      { state := st, result := .success data, requests := [req, .getCart],
        events := [.itemAdded data quantity] }
    | .httpError status msg =>
      { state := st, result := .failure (httpErrorMessage status msg),
        requests := [req], events := [.cartError (httpErrorMessage status msg)] }
    | .transportError m =>
      { state := st, result := .failure m, requests := [req],
        events := [.cartError m] }

/-- `cartUtils.updateCartItem(line, quantity)`: posts to
`/cart/change.js` and returns the typed result; no event is dispatched on
either outcome and the cache field is never touched. -/
def updateCartItem (line : Nat) (quantity : Int) (resp : Response)
    (st : CartUtilsState) : OpResult :=
  match resp with
  | .ok data =>
    { state := st, result := .success data,
      requests := [.postCartChange line quantity], events := [] }
  | .httpError status _ =>
    { state := st, result := .failure ("HTTP error! status: " ++ toString status),
      requests := [.postCartChange line quantity], events := [] }
  | .transportError m =>
    { state := st, result := .failure m,
      requests := [.postCartChange line quantity], events := [] }

/-- `cartUtils.removeFromCart(line)`: posts `quantity: 0` to
`/cart/change.js`; same shape as `updateCartItem`. -/
def removeFromCart (line : Nat) (resp : Response)
    (st : CartUtilsState) : OpResult :=
  match resp with
  | .ok data =>
    { state := st, result := .success data,
      requests := [.postCartChange line 0], events := [] }
  | .httpError status _ =>
    { state := st, result := .failure ("HTTP error! status: " ++ toString status),
      requests := [.postCartChange line 0], events := [] }
  | .transportError m =>
    { state := st, result := .failure m,
      requests := [.postCartChange line 0], events := [] }

/-- `cartUtils.clearCartCache()`: `this.cartCache = null`. -/
def clearCartCache (st : CartUtilsState) : CartUtilsState :=
  { st with cartCache := none }

/-- `cartUtils.updateCartNote(note)`: posts to `/cart/update.js`; on
success clears the cache (`clearCartCache`) and dispatches
`cart:note-updated`; failures return the typed error with no event. -/
def updateCartNote (note : String) (resp : Response)
    (st : CartUtilsState) : OpResult :=
  match resp with
  | .ok data =>
    { state := clearCartCache st, result := .success data,
      requests := [.postCartUpdate note], events := [.noteUpdated note] }
  | .httpError status _ =>
    { state := st, result := .failure ("HTTP error! status: " ++ toString status),
      requests := [.postCartUpdate note], events := [] }
  | .transportError m =>
    { state := st, result := .failure m,
      requests := [.postCartUpdate note], events := [] }

/-- Result of a `getCartData` read: new state, the returned data (`null`
on failure), and the network requests issued. -/
structure ReadResult where
  state : CartUtilsState
  data : Option Cart
  requests : List NetRequest
deriving DecidableEq

/-- The fetch path of `getCartData`: read `/cart.js`, populate the cache
with the current timestamp on success, return `null` (cache untouched)
on failure. -/
def getCartDataFetch (now : Nat) (resp : Response)
    (st : CartUtilsState) : ReadResult :=
  match resp with
  | .ok data =>
    { state := { cartCache := some (data, now) }, data := some data,
      requests := [.getCart] }
  | _ =>
    { state := st, data := none, requests := [.getCart] }

/-- `cartUtils.getCartData(forceRefresh)`: serves the cached document
without network I/O when `!forceRefresh && cartCache && now - timestamp
< 5000`; otherwise refetches.  (`now - timestamp` is `Nat` subtraction,
which agrees with the JavaScript comparison for monotone clocks.) -/
def getCartData (forceRefresh : Bool) (now : Nat) (resp : Response)
    (st : CartUtilsState) : ReadResult :=
  match st.cartCache with
  | some (cached, ts) =>
    if forceRefresh = false ∧ now - ts < 5000 then
      { state := st, data := some cached, requests := [] }
    else getCartDataFetch now resp st
  | none => getCartDataFetch now resp st

/-- Two immediately successive `cartUtils.updateCartItem` calls with the
same line and quantity (the second starting after the first settled):
the concatenated list of network requests they issue. -/
def utilsTwoChangeCalls (line : Nat) (q : Int) (r1 r2 : Response)
    (st : CartUtilsState) : List NetRequest :=
  let o1 := updateCartItem line q r1 st
  let o2 := updateCartItem line q r2 o1.state
  o1.requests ++ o2.requests

/-- Concrete cart documents used as test fixtures. -/
def cartOne : Cart :=
  { items := [{ quantity := 1, line_price := 500 }],
    item_count := 1, total_price := 500, note := "" }

def cartFive : Cart :=
  { items := [{ quantity := 5, line_price := 2500 }],
    item_count := 5, total_price := 2500, note := "" }

def cartA : Cart :=
  { items := [{ quantity := 2, line_price := 200 }],
    item_count := 2, total_price := 200, note := "" }

def cartB : Cart :=
  { items := [{ quantity := 3, line_price := 300 }],
    item_count := 3, total_price := 300, note := "" }

/-- The `CustomEvent`s dispatched by `CartSystem` and `CartDrawer`:
`cart:updated` carrying `{ cart }` (system) or `{ item_count, cart }`
(drawer, where `cart` may be `null`). -/
inductive SysEvent where
  | cartUpdated (c : Cart)
  | drawerUpdated (count : Nat) (c : Option Cart)
deriving DecidableEq

/-- One primitive observable effect of a mutation handler, in program
order.  `request` marks the point where the handler performs `await
fetch(...)`; every effect listed after a `request` happens only once that
response has arrived. -/
inductive Effect where
  | request (r : NetRequest)
  | render (c : Cart)
  | dispatch (e : SysEvent)
  | notify (message kind : String)
  | setInputValue (v : Nat)
deriving DecidableEq

/-- Effects emitted strictly before the first network suspension point,
i.e. before any response can have arrived. -/
def preResponseEffects (es : List Effect) : List Effect :=
  es.takeWhile fun e =>
    match e with
    | .request _ => false
    | _ => true

/-- The cart snapshots shown to observers (the `updateCartUI` /
`render` calls) within an effect trace. -/
def rendersOf (es : List Effect) : List Cart :=
  es.filterMap fun e =>
    match e with
    | .render c => some c
    | _ => none

/-- The `CustomEvent`s dispatched within an effect trace. -/
def dispatchesOf (es : List Effect) : List SysEvent :=
  es.filterMap fun e =>
    match e with
    | .dispatch ev => some ev
    | _ => none

/-- The value `CartSystem.updateLineItem` writes back into the quantity
input on failure: `this.cart.items[line - 1]?.quantity || 1` (a missing
line or a quantity of 0 both fall back to 1). -/
def revertValue (cart : Cart) (line : Nat) : Nat :=
  match cart.items.get? (line - 1) with
  | some it => if it.quantity = 0 then 1 else it.quantity
  | none => 1

/-- Effect trace of one entered `CartSystem.updateLineItem` body (the
`isUpdating` guard is modelled by the machine below): post the change,
then on an OK response replace `this.cart`, re-render (header count,
totals, mini cart, shipping bar), dispatch `cart:updated` and show the
success notification; on any failure show the error notification and
revert the input value — nothing is rendered before the response. -/
def updateLineItemTrace (cart : Cart) (line : Nat) (value : Int)
    (resp : Response) : List Effect :=
  Effect.request (.postCartChange line value) ::
    match resp with
    | .ok c =>
      [.render c, .dispatch (.cartUpdated c),
       .notify "Carrinho atualizado" "success"]
    | _ =>
      [.notify "Erro ao atualizar item" "error",
       .setInputValue (revertValue cart line)]

/-- Effect trace of one `CartDrawer.updateCartItem(line, qty)` call:
post the change; on an OK response run `updateCart` (refetch `/cart.js`,
render the refetched document — or the previous one if the refetch is
not OK — and dispatch `cart:updated`); on failure show the error
message.  `cartData` is the `this.cartData` field of the drawer before
the call. -/
def drawerUpdateCartItemTrace (cartData : Option Cart) (line : Nat)
    (qty : Int) (resp refetch : Response) : List Effect :=
  Effect.request (.postCartChange line qty) ::
    match resp with
    | .ok _ =>
      Effect.request .getCart ::
        (let newData : Option Cart :=
          match refetch with
          | .ok c => some c
          | _ => cartData
         (match newData with
          | some c => [Effect.render c]
          | none => []) ++
           [Effect.dispatch (.drawerUpdated
             (match newData with | some c => c.item_count | none => 0) newData)])
    | _ => [.notify "Failed to update item. Please try again." "error"]

/-- One debounced edit raised inside the cart drawer: a quantity input
change (`handleQuantityChange`) or a cart-note keystroke
(`handleNoteChange`).  Both handlers share the single
`this.debounceTimer` of the drawer. -/
inductive DrawerEdit where
  | quantityEdit (line : Nat) (qty : Int)
  | noteEdit (text : String)
deriving DecidableEq

/-- The network request the debounced callback finally issues. -/
def editRequest : DrawerEdit → NetRequest
  | .quantityEdit l q => .postCartChange l q
  | .noteEdit t => .postCartUpdate t

/-- Debounce semantics of the drawer, for a time-ordered list of edit
events `(time, edit)` followed by quiescence: each event runs
`clearTimeout(this.debounceTimer)` and schedules its own callback 500 ms
later, so a pending edit fires only if the next event comes at least
500 ms after it; the last pending edit always fires. -/
def runDebounce : List (Nat × DrawerEdit) → List DrawerEdit
  | [] => []
  | [(_, e)] => [e]
  | (t1, e1) :: (t2, e2) :: rest =>
    if 500 ≤ t2 - t1 then e1 :: runDebounce ((t2, e2) :: rest)
    else runDebounce ((t2, e2) :: rest)

/-- The network calls the drawer issues for a burst of debounced edits. -/
def drawerDebouncedCalls (es : List (Nat × DrawerEdit)) : List NetRequest :=
  (runDebounce es).map editRequest

/-- An invocation of one of the mutation entry points, or the settlement
of an outstanding mutation fetch, in the single-threaded event loop.
`sysSettle` resumes the awaited fetch of `CartSystem`; the drawer and
`cartUtils` settlements resume their oldest outstanding fetch. -/
inductive LoopAction where
  | sysUpdateLine (line : Nat) (value : Int)
  | sysRemoveLine (line : Nat)
  | sysSettle (resp : Response)
  | drawerChangeItem (line : Nat) (qty : Int)
  | drawerSettle (resp : Response)
  | utilsChangeItem (line : Nat) (qty : Int)
  | utilsSettle (resp : Response)
deriving DecidableEq

/-- Global state of the interleaving machine: the `isUpdating` flag and
confirmed cart of `CartSystem`, plus the multiset (kept as lists)
of mutation requests currently in flight from each component, and the
log of all mutation requests ever issued. -/
structure MState where
  sysUpdating : Bool
  sysCart : Cart
  sysInFlight : List NetRequest
  drawerInFlight : List NetRequest
  utilsInFlight : List NetRequest
  issued : List NetRequest
deriving DecidableEq

/-- Page-load state: no fetch outstanding, `isUpdating = false`. -/
def initState : MState :=
  { sysUpdating := false, sysCart := cartOne, sysInFlight := [],
    drawerInFlight := [], utilsInFlight := [], issued := [] }

/-- One step of the event loop.  `CartSystem.updateLineItem` and
`removeLineItem` begin with `if (this.isUpdating) return;` — a call made
while a mutation is in flight is dropped unchanged, not queued.
`CartDrawer.updateCartItem` and `cartUtils.updateCartItem` have no such
guard and always issue their fetch. -/
def step (s : MState) (a : LoopAction) : MState :=
  match a with
  | .sysUpdateLine l v =>
    if s.sysUpdating then s
    else
      { s with sysUpdating := true,
               sysInFlight := s.sysInFlight ++ [.postCartChange l v],
               issued := s.issued ++ [.postCartChange l v] }
  | .sysRemoveLine l =>
    if s.sysUpdating then s
    else
      { s with sysUpdating := true,
               sysInFlight := s.sysInFlight ++ [.postCartChange l 0],
               issued := s.issued ++ [.postCartChange l 0] }
  | .sysSettle resp =>
    match s.sysInFlight with
    | [] => s
    | _ :: rest =>
      match resp with
      | .ok c =>
        { s with sysCart := c, sysInFlight := rest, sysUpdating := false }
      | _ =>
        { s with sysInFlight := rest, sysUpdating := false }
  | .drawerChangeItem l q =>
    { s with drawerInFlight := s.drawerInFlight ++ [.postCartChange l q],
             issued := s.issued ++ [.postCartChange l q] }
  | .drawerSettle _ =>
    { s with drawerInFlight := s.drawerInFlight.drop 1 }
  | .utilsChangeItem l q =>
    { s with utilsInFlight := s.utilsInFlight ++ [.postCartChange l q],
             issued := s.issued ++ [.postCartChange l q] }
  | .utilsSettle _ =>
    { s with utilsInFlight := s.utilsInFlight.drop 1 }

/-- Run a sequence of event-loop actions. -/
def run : MState → List LoopAction → MState
  | s, [] => s
  | s, a :: rest => run (step s a) rest

/-- Number of cart mutation requests currently in flight across all
three components. -/
def inFlightMutations (s : MState) : Nat :=
  s.sysInFlight.length + s.drawerInFlight.length + s.utilsInFlight.length

/-- Invariant maintained by `CartSystem`: its `isUpdating` flag is down
exactly when it has no outstanding fetch, and it never has more than one
outstanding fetch. -/
def SysInv (s : MState) : Prop :=
  (s.sysUpdating = false → s.sysInFlight = []) ∧ s.sysInFlight.length ≤ 1

theorem sysInv_init : SysInv initState := by
  constructor
  · intro _; rfl
  · simp [initState]

theorem sysInv_step (s : MState) (a : LoopAction) (h : SysInv s) :
    SysInv (step s a) := by
  obtain ⟨h1, h2⟩ := h
  cases a with
  | sysUpdateLine l v =>
    by_cases hu : s.sysUpdating = true
    · simpa [SysInv, step, hu] using h2
    · have hfalse : s.sysUpdating = false := by
        cases hb : s.sysUpdating
        · rfl
        · exact absurd hb hu
      have he : s.sysInFlight = [] := h1 hfalse
      simp [SysInv, step, hfalse, he]
  | sysRemoveLine l =>
    by_cases hu : s.sysUpdating = true
    · simpa [SysInv, step, hu] using h2
    · have hfalse : s.sysUpdating = false := by
        cases hb : s.sysUpdating
        · rfl
        · exact absurd hb hu
      have he : s.sysInFlight = [] := h1 hfalse
      simp [SysInv, step, hfalse, he]
  | sysSettle resp =>
    cases hf : s.sysInFlight with
    | nil => simp [SysInv, step, hf]
    | cons x rest =>
      have hr : rest = [] := by
        have h2' := h2
        rw [hf] at h2'
        simpa using h2'
      cases resp <;> simp [SysInv, step, hf, hr]
  | drawerChangeItem l q => simpa [SysInv, step] using ⟨h1, h2⟩
  | drawerSettle resp => simpa [SysInv, step] using ⟨h1, h2⟩
  | utilsChangeItem l q => simpa [SysInv, step] using ⟨h1, h2⟩
  | utilsSettle resp => simpa [SysInv, step] using ⟨h1, h2⟩

theorem sysInv_run (acts : List LoopAction) :
    ∀ s : MState, SysInv s → SysInv (run s acts) := by
  induction acts with
  | nil => intro s h; exact h
  | cons a rest ih =>
    intro s h
    simpa [run] using ih (step s a) (sysInv_step s a h)

/-- Claim C1, counterexample.  The claim asserts that in every reachable
state at most one cart mutation request is in flight for the whole cart,
across every component.  Concretely reachable violation: a drawer
quantity click issues its `/cart/change.js` fetch, and before it
settles a `cartUtils.updateCartItem` call issues a second one — neither
entry point consults any in-flight flag, so two mutations are in flight
at once. -/
theorem c1_counterexample :
    1 < inFlightMutations
      (run initState [.drawerChangeItem 1 2, .utilsChangeItem 2 3]) := by
  decide

/-- Claim C1 (amended): only `CartSystem` enforces the single-flight
policy — in every reachable state of the event-loop machine, whatever
the other components do, `CartSystem` itself has at most one mutation
request in flight, thanks to its `isUpdating` guard. -/
theorem c1_sys_single_flight (acts : List LoopAction) :
    (run initState acts).sysInFlight.length ≤ 1 :=
  (sysInv_run acts initState sysInv_init).2

/-- Claim C3, counterexample.  The claim asserts that a mutation raised
while another is in flight is queued and issued to the gateway after the
first settles, never dropped.  In the source, `CartSystem.updateLineItem`
begins with `if (this.isUpdating) return;`: in the run below the second
edit (line 2, quantity 3) arrives while the first is in flight, and even
after the first settles the machine is quiescent with only the first
request ever issued — the second mutation was dropped, not queued. -/
theorem c3_counterexample :
    (run initState
        [.sysUpdateLine 1 5, .sysUpdateLine 2 3, .sysSettle (.ok cartB)]).issued
      = [.postCartChange 1 5] ∧
    (run initState
        [.sysUpdateLine 1 5, .sysUpdateLine 2 3, .sysSettle (.ok cartB)]).sysInFlight
      = [] := by
  refine ⟨by decide, by decide⟩

/-- Claim C3 (amended): a `CartSystem.updateLineItem` call made while a
mutation is already in flight is silently dropped — the step leaves the
whole machine state unchanged (no request issued, nothing queued), so the
final snapshot need not reflect the superseded edit. -/
theorem c3_inflight_mutation_dropped (s : MState) (l : Nat) (v : Int)
    (h : s.sysUpdating = true) :
    step s (.sysUpdateLine l v) = s := by
  simp [step, h]

theorem c3_inflight_mutation_dropped_witness :
    step { initState with sysUpdating := true } (.sysUpdateLine 2 3)
      = { initState with sysUpdating := true } :=
  c3_inflight_mutation_dropped { initState with sysUpdating := true } 2 3 rfl

/-- Claim C2, counterexample.  The claim asserts that on a mutation
intent the engine immediately hands a predicted (provisional) snapshot
to observers before the network response arrives.  For the concrete
intent "set line 1 of `cartOne` from quantity 1 to 5", the effect trace
of `CartSystem.updateLineItem` emits nothing at all before its fetch
suspends — no predicted snapshot exists — and the only snapshot ever
rendered is the authoritative one from the server response. -/
theorem c2_counterexample :
    preResponseEffects (updateLineItemTrace cartOne 1 5 (.ok cartFive)) = [] ∧
    rendersOf (updateLineItemTrace cartOne 1 5 (.ok cartFive)) = [cartFive] := by
  refine ⟨by decide, by decide⟩

/-- Claim C2 (amended): no component derives a predicted snapshot.  For
every mutation intent, `CartSystem.updateLineItem` and
`CartDrawer.updateCartItem` emit no observer-visible effect before the
gateway response arrives; on success the snapshot shown to observers is
exactly the authoritative one from the server. -/
theorem c2_no_optimistic_update :
    (∀ cart line value resp,
      preResponseEffects (updateLineItemTrace cart line value resp) = []) ∧
    (∀ cart line value c,
      rendersOf (updateLineItemTrace cart line value (.ok c)) = [c]) ∧
    (∀ cartData line qty resp refetch,
      preResponseEffects
        (drawerUpdateCartItemTrace cartData line qty resp refetch) = []) ∧
    (∀ cartData line qty c,
      rendersOf (drawerUpdateCartItemTrace cartData line qty (.ok c) (.ok c)) = [c]) := by
  refine ⟨?_, ?_, ?_, ?_⟩
  · intro cart line value resp
    simp [updateLineItemTrace, preResponseEffects]
  · intro cart line value c
    simp [updateLineItemTrace, rendersOf]
  · intro cartData line qty resp refetch
    simp [drawerUpdateCartItemTrace, preResponseEffects]
  · intro cartData line qty c
    simp [drawerUpdateCartItemTrace, rendersOf]

/-- Claim C7, counterexample.  The claim asserts that on a failed
quantity change (from 1 to 5) an error event carrying a human-readable
cause is fired.  In the source the failure path of
`CartSystem.updateLineItem` reverts the input and shows a DOM
notification, but dispatches no `CustomEvent` at all — the trace of the
concrete failing change from quantity 1 to 5 contains zero dispatched
events (`cart:error` is only ever dispatched by `cartUtils.addToCart`). -/
theorem c7_counterexample :
    dispatchesOf
      (updateLineItemTrace cartOne 1 5 (.transportError "NetworkError")) = [] ∧
    updateLineItemTrace cartOne 1 5 (.transportError "NetworkError") =
      [.request (.postCartChange 1 5),
       .notify "Erro ao atualizar item" "error",
       .setInputValue 1] := by
  refine ⟨by decide, by decide⟩

/-- Claim C7 (amended): when a quantity-change mutation fails,
`CartSystem.updateLineItem` reverts the quantity input to the last
quantity that line has in the last confirmed snapshot (1 in the 1-to-5
scenario,
via `revertValue`) and shows an error notification with a human-readable
message — but it dispatches no error event. -/
theorem c7_failure_reverts_and_notifies :
    (∀ cart line value msg,
      updateLineItemTrace cart line value (.transportError msg) =
        [.request (.postCartChange line value),
         .notify "Erro ao atualizar item" "error",
         .setInputValue (revertValue cart line)]) ∧
    (∀ cart line value status om,
      updateLineItemTrace cart line value (.httpError status om) =
        [.request (.postCartChange line value),
         .notify "Erro ao atualizar item" "error",
         .setInputValue (revertValue cart line)]) ∧
    revertValue cartOne 1 = 1 ∧
    (∀ cart line value msg,
      dispatchesOf (updateLineItemTrace cart line value (.transportError msg)) = []) := by
  refine ⟨?_, ?_, by decide, ?_⟩
  · intro cart line value msg
    rfl
  · intro cart line value status om
    rfl
  · intro cart line value msg
    simp [updateLineItemTrace, dispatchesOf]

/-- Claim C5, counterexample.  The claim asserts the drawer debounce is
per line, collapsing only repeated edits to the same `lineIndex`.  The
source keeps a single `this.debounceTimer` for the whole drawer, so an
edit to a different line within the 500 ms window also cancels the
pending edit: after an edit of line 1 (quantity 5) at t = 0 ms and an
edit of line 2 (quantity 3) at t = 100 ms, only the call for line 2 is
made and the edit of line 1 is never sent. -/
theorem c5_counterexample :
    drawerDebouncedCalls
        [(0, .quantityEdit 1 5), (100, .quantityEdit 2 3)]
      = [.postCartChange 2 3] := by
  decide

/-- Claim C5 (amended): three rapid edits to the same line (5, 6, 7)
within the 500 ms window produce exactly one `/cart/change.js` call
carrying the last quantity 7 — but the debounce is global, not per line:
the single shared timer of the drawer also lets an edit to another line,
or even a cart-note keystroke, cancel a pending quantity edit within the
window. -/
theorem c5_debounce_last_edit_wins :
    drawerDebouncedCalls
        [(0, .quantityEdit 1 5), (100, .quantityEdit 1 6), (200, .quantityEdit 1 7)]
      = [.postCartChange 1 7] ∧
    drawerDebouncedCalls [(0, .quantityEdit 1 5), (100, .noteEdit "gift wrap")]
      = [.postCartUpdate "gift wrap"] ∧
    drawerDebouncedCalls
        [(0, .quantityEdit 1 5), (700, .quantityEdit 2 3)]
      = [.postCartChange 1 5, .postCartChange 2 3] := by
  refine ⟨by decide, by decide, by decide⟩

/-- Claim C6, counterexample.  The claim asserts that issuing
`changeLine(line, q)` twice in immediate succession with the same `q`
results in exactly one network call.  `cartUtils.updateCartItem` — the
`changeLine` operation of the theme — has no deduplication: two
immediately successive calls with line 1, quantity 5 issue two identical
`/cart/change.js` requests. -/
theorem c6_counterexample :
    utilsTwoChangeCalls 1 5 (.ok cartFive) (.ok cartFive) initUtils
      = [.postCartChange 1 5, .postCartChange 1 5] ∧
    (utilsTwoChangeCalls 1 5 (.ok cartFive) (.ok cartFive) initUtils).length = 2 := by
  refine ⟨by decide, by decide⟩

/-- Claim C6 (amended): `cartUtils.updateCartItem` issues exactly one
network call per invocation, unconditionally — so two successive calls
with the same line and quantity always issue two identical calls, for
every starting state and every pair of responses. -/
theorem c6_change_call_not_deduplicated (line : Nat) (q : Int)
    (r1 r2 : Response) (st : CartUtilsState) :
    utilsTwoChangeCalls line q r1 r2 st
      = [.postCartChange line q, .postCartChange line q] := by
  cases r1 <;> cases r2 <;> rfl

/-- Claim C4 (confirmed): when the first `getCartData()` call populates
the cache at time `t0`, a second call within the 5000 ms TTL issues zero
additional network calls and returns the cached snapshot. -/
theorem c4_fresh_cache_no_refetch (st : CartUtilsState) (cart : Cart)
    (t0 t1 : Nat) (resp2 : Response)
    (h0 : st.cartCache = none) (h1 : t1 - t0 < 5000) :
    (getCartData false t0 (.ok cart) st).requests = [.getCart] ∧
    (getCartData false t1 resp2 (getCartData false t0 (.ok cart) st).state).requests
      = [] ∧
    (getCartData false t1 resp2 (getCartData false t0 (.ok cart) st).state).data
      = some cart := by
  have hstate : (getCartData false t0 (.ok cart) st).state
      = { cartCache := some (cart, t0) } := by
    simp [getCartData, h0, getCartDataFetch]
  have hfirst : (getCartData false t0 (.ok cart) st).requests = [.getCart] := by
    simp [getCartData, h0, getCartDataFetch]
  rw [hstate]
  exact ⟨hfirst, by simp [getCartData, h1], by simp [getCartData, h1]⟩

theorem c4_fresh_cache_no_refetch_witness :
    (getCartData false 0 (.ok cartFive) initUtils).requests = [.getCart] ∧
    (getCartData false 100 (.ok cartA)
        (getCartData false 0 (.ok cartFive) initUtils).state).requests = [] ∧
    (getCartData false 100 (.ok cartA)
        (getCartData false 0 (.ok cartFive) initUtils).state).data = some cartFive :=
  c4_fresh_cache_no_refetch initUtils cartFive 0 100 (.ok cartA) rfl (by decide)

/-- Claim C8, counterexample.  The claim asserts that failures of every
cart operation are converted to an error broadcast carrying the cause.
A failing `cartUtils.updateCartItem` (here a transport-level
`NetworkError`) returns the typed failure result but dispatches no event
whatsoever — only `addToCart` broadcasts `cart:error`. -/
theorem c8_counterexample :
    (updateCartItem 1 5 (.transportError "NetworkError") initUtils).events = [] ∧
    (updateCartItem 1 5 (.transportError "NetworkError") initUtils).result
      = CartResult.failure "NetworkError" :=
  ⟨rfl, rfl⟩

/-- Claim C8 (amended): every cart operation returns a typed result
object — `{ success: true, data }` on an OK response, `{ success: false,
error }` on a non-OK status or transport failure — and never throws past
its boundary; but only `addToCart` converts its failures to a
`cart:error` broadcast, while `updateCartItem`, `removeFromCart` and
`updateCartNote` fail silently (no event). -/
theorem c8_typed_results (line : Nat) (q : Int) (note : String)
    (v : Nat) (qa : Int) (c : Cart) (st : CartUtilsState) (m : String)
    (status : Nat) (om : Option String)
    (hv : jsFalsy (some v) = false) (hq : ¬ qa < 1) :
    updateCartItem line q (.ok c) st
      = { state := st, result := .success c,
          requests := [.postCartChange line q], events := [] } ∧
    updateCartItem line q (.transportError m) st
      = { state := st, result := .failure m,
          requests := [.postCartChange line q], events := [] } ∧
    updateCartItem line q (.httpError status om) st
      = { state := st,
          result := .failure ("HTTP error! status: " ++ toString status),
          requests := [.postCartChange line q], events := [] } ∧
    removeFromCart line (.ok c) st
      = { state := st, result := .success c,
          requests := [.postCartChange line 0], events := [] } ∧
    removeFromCart line (.transportError m) st
      = { state := st, result := .failure m,
          requests := [.postCartChange line 0], events := [] } ∧
    updateCartNote note (.ok c) st
      = { state := { cartCache := none }, result := .success c,
          requests := [.postCartUpdate note], events := [.noteUpdated note] } ∧
    updateCartNote note (.transportError m) st
      = { state := st, result := .failure m,
          requests := [.postCartUpdate note], events := [] } ∧
    addToCart (some v) qa (.ok c) st
      = { state := st, result := .success c,
          requests := [.postCartAdd v qa, .getCart],
          events := [.itemAdded c qa] } ∧
    addToCart (some v) qa (.transportError m) st
      = { state := st, result := .failure m,
          requests := [.postCartAdd v qa],
          events := [.cartError m] } := by
  refine ⟨rfl, rfl, rfl, rfl, rfl, rfl, rfl, ?_, ?_⟩
  · simp [addToCart, hv, hq]
  · simp [addToCart, hv, hq]

theorem c8_typed_results_witness :
    updateCartItem 1 5 (.ok cartFive) initUtils
      = { state := initUtils, result := .success cartFive,
          requests := [.postCartChange 1 5], events := [] } ∧
    updateCartItem 1 5 (.transportError "NetworkError 2") initUtils
      = { state := initUtils, result := .failure "NetworkError 2",
          requests := [.postCartChange 1 5], events := [] } ∧
    updateCartItem 1 5 (.httpError 422 none) initUtils
      = { state := initUtils,
          result := .failure ("HTTP error! status: " ++ toString 422),
          requests := [.postCartChange 1 5], events := [] } ∧
    removeFromCart 1 (.ok cartFive) initUtils
      = { state := initUtils, result := .success cartFive,
          requests := [.postCartChange 1 0], events := [] } ∧
    removeFromCart 1 (.transportError "NetworkError 2") initUtils
      = { state := initUtils, result := .failure "NetworkError 2",
          requests := [.postCartChange 1 0], events := [] } ∧
    updateCartNote "gift" (.ok cartFive) initUtils
      = { state := { cartCache := none }, result := .success cartFive,
          requests := [.postCartUpdate "gift"], events := [.noteUpdated "gift"] } ∧
    updateCartNote "gift" (.transportError "NetworkError 2") initUtils
      = { state := initUtils, result := .failure "NetworkError 2",
          requests := [.postCartUpdate "gift"], events := [] } ∧
    addToCart (some 123) 2 (.ok cartFive) initUtils
      = { state := initUtils, result := .success cartFive,
          requests := [.postCartAdd 123 2, .getCart],
          events := [.itemAdded cartFive 2] } ∧
    addToCart (some 123) 2 (.transportError "NetworkError 2") initUtils
      = { state := initUtils, result := .failure "NetworkError 2",
          requests := [.postCartAdd 123 2],
          events := [.cartError "NetworkError 2"] } :=
  c8_typed_results 1 5 "gift" 123 2 cartFive initUtils "NetworkError 2" 422 none
    rfl (by decide)

/-- Claim C9 (confirmed): `cartUtils.addToCart` called with a
missing/falsy variant id, or with a quantity below 1, performs no
network request, dispatches `cart:error` with a descriptive message,
returns the typed failure, and leaves the module state unchanged. -/
theorem c9_add_to_cart_validation (v : Option Nat) (q : Int)
    (resp : Response) (st : CartUtilsState)
    (h : jsFalsy v = true ∨ q < 1) :
    (addToCart v q resp st).requests = [] ∧
    (addToCart v q resp st).state = st ∧
    ∃ msg, (addToCart v q resp st).result = CartResult.failure msg ∧
      (addToCart v q resp st).events = [CartEvent.cartError msg] := by
  by_cases hv : jsFalsy v = true
  · refine ⟨?_, ?_, "Variant ID is required", ?_, ?_⟩ <;> simp [addToCart, hv]
  · have hq : q < 1 := h.resolve_left hv
    have hv' : jsFalsy v = false := by
      cases hb : jsFalsy v
      · rfl
      · exact absurd hb hv
    refine ⟨?_, ?_, "Quantity must be at least 1", ?_, ?_⟩ <;>
      simp [addToCart, hv', hq]

theorem c9_add_to_cart_validation_witness :
    (addToCart none 1 (.ok cartFive) initUtils).requests = [] ∧
    (addToCart none 1 (.ok cartFive) initUtils).state = initUtils ∧
    ∃ msg, (addToCart none 1 (.ok cartFive) initUtils).result
        = CartResult.failure msg ∧
      (addToCart none 1 (.ok cartFive) initUtils).events
        = [CartEvent.cartError msg] :=
  c9_add_to_cart_validation none 1 (.ok cartFive) initUtils (Or.inl rfl)

/-- Claim C10 (confirmed): a successful `updateCartNote` clears the
cache (so the next `getCartData` refetches), while `updateCartItem` and
`removeFromCart` leave the cache field untouched on every outcome — so a
`getCartData` within the 5-second TTL after a successful line mutation
returns the stale pre-mutation snapshot (`cartA` below, although the
server already moved to `cartB`) with no network call. -/
theorem c10_cache_invalidation_frame :
    (∀ note c st, (updateCartNote note (.ok c) st).state.cartCache = none) ∧
    (∀ line q r st, (updateCartItem line q r st).state = st) ∧
    (∀ line r st, (removeFromCart line r st).state = st) ∧
    (∀ now r, (getCartData false now r initUtils).requests = [.getCart]) ∧
    cartA.item_count = 2 ∧ cartB.item_count = 3 ∧
    (getCartData false 100 (.ok cartB)
        (updateCartItem 1 5 (.ok cartB) { cartCache := some (cartA, 0) }).state).data
      = some cartA ∧
    (getCartData false 100 (.ok cartB)
        (updateCartItem 1 5 (.ok cartB) { cartCache := some (cartA, 0) }).state).requests
      = [] := by
  refine ⟨?_, ?_, ?_, ?_, by decide, by decide, by decide, by decide⟩
  · intro note c st; rfl
  · intro line q r st; cases r <;> rfl
  · intro line r st; cases r <;> rfl
  · intro now r; cases r <;> rfl
